import Mathlib

/-!
Shallow embedding of the HW Q&A backend (src/app.py): JWT session tokens,
the credential and chat stores backed by MongoDB, and the FastAPI endpoint
handlers.  Machine-level details are modelled as follows: time is a Nat
(seconds since epoch), the HMAC signature of a token is an abstract tag
computed from the claims and the shared secret, the bcrypt hash and verify
functions are passed in as parameters (they are salted and hence not pure
functions of the password alone), and the database handle of get_db is an
Option DB (none means get_db obtained no handle).

The four handlers that touch the store all begin with the guard
`if not db:`.  When db is None, `not None` is True and the handler raises
HTTP 503.  But when get_db did return a handle, db is a pymongo Database,
and pymongo deliberately makes truth testing of Database objects raise
NotImplementedError (they must be compared with None instead, as get_db
itself does at app.py line 44 and api_status does at line 178).  In
auth_signup (line 183) and auth_login (line 209) this raise happens before
the try block, and in chats_save (line 232) and chats_list (line 246)
there is no try at all, so in all four handlers the exception is uncaught
and FastAPI turns it into a generic HTTP 500 Internal Server Error.  The
code after the guard (duplicate check, credential check, insert, query)
is consequently unreachable whenever a store handle exists, and the
embedding of these handlers reflects that.
-/

namespace HW

/-- Config constant from app.py line 31: JWT_EXPIRE_MINUTES = 60 * 24 * 7. -/
def JWT_EXPIRE_MINUTES : Nat := 60 * 24 * 7

/-- The claim set carried by a token: subject id, email, expiry.
    sub and email are optional because jwt.decode returns a dict and the
    handler reads them with payload.get, which yields None when absent. -/
structure Claims where
  sub : Option String
  email : Option String
  exp : Nat
deriving Repr, DecidableEq

/-- A compact signed token: the claim set plus a signature tag. -/
structure Token where
  claims : Claims
  sig : String
deriving Repr, DecidableEq

/-- Abstract stand-in for the HS256 signature over the encoded claims and
    the shared secret: a tag that is valid exactly when it was produced
    from these claims with this secret. -/
def mkSig (c : Claims) (secret : String) : String :=
  "HS256:" ++ secret ++ ":" ++ toString c.exp ++ ":" ++ c.sub.getD "-" ++ ":" ++ c.email.getD "-"

/-- jwt.encode: sign the claims with the shared secret. -/
def jwt_encode (c : Claims) (secret : String) : Token :=
  ⟨c, mkSig c secret⟩

/-- The single failure jose raises on decode (bad signature or expired). -/
inductive JWTError where
  | invalid
deriving Repr, DecidableEq

/-- jwt.decode: reject when the signature does not match the shared secret,
    or when the exp claim lies strictly in the past (jose treats
    exp < now as expired, with zero leeway). -/
def jwt_decode (t : Token) (secret : String) (now : Nat) : Except JWTError Claims :=
  if t.sig ≠ mkSig t.claims secret then .error .invalid
  else if t.claims.exp < now then .error .invalid
  else .ok t.claims

/-- app.py lines 60-64: create_access_token copies the payload and adds
    exp = utcnow + JWT_EXPIRE_MINUTES minutes.  Both call sites pass
    a dict with sub and email, so those are the modelled fields. -/
def create_access_token (sub email : String) (now : Nat) (secret : String) : Token :=
  jwt_encode { sub := some sub, email := some email, exp := now + JWT_EXPIRE_MINUTES * 60 } secret

/-- FastAPI HTTPException: a status code and a detail message. -/
structure HTTPException where
  status : Nat
  detail : String
deriving Repr, DecidableEq

/-- The identity dict returned by get_current_user:
    id from the sub claim, email from the email claim (possibly None). -/
structure CurrentUser where
  id : String
  email : Option String
deriving Repr, DecidableEq

/-- app.py lines 66-77: get_current_user.  No credentials gives 401
    (HTTPBearer has auto_error=False, so creds is None and the handler
    raises).  A decode failure gives 401.  A falsy sub claim (absent, or
    the empty string, since Python `not user_id` covers both) gives 401.
    Otherwise the identity embedded in the token is returned. -/
def get_current_user (creds : Option Token) (secret : String) (now : Nat) :
    Except HTTPException CurrentUser :=
  match creds with
  | none => .error ⟨401, "Not authenticated"⟩
  | some t =>
    match jwt_decode t secret now with
    | .error _ => .error ⟨401, "Invalid token"⟩
    | .ok payload =>
      match payload.sub with
      | none => .error ⟨401, "Invalid token"⟩
      | some uid =>
        if uid = "" then .error ⟨401, "Invalid token"⟩
        else .ok ⟨uid, payload.email⟩

/-- app.py lines 225-227: auth_me echoes the identity from the token. -/
def auth_me (creds : Option Token) (secret : String) (now : Nat) :
    Except HTTPException CurrentUser :=
  get_current_user creds secret now

/-- A document of the users collection: Mongo-generated id (as rendered by
    str), email, bcrypt password hash, creation timestamp. -/
structure UserDoc where
  oid : String
  email : String
  password : String
  createdAt : Nat
deriving Repr, DecidableEq

/-- A document of the chats collection, as written by chats_save. -/
structure ChatDoc where
  userId : String
  question : String
  answer : String
  error : String
  createdAt : Nat
deriving Repr, DecidableEq

/-- The two collections behind get_db.  Mongo insert_one appends;
    find scans in insertion order. -/
structure DB where
  users : List UserDoc
  chats : List ChatDoc
deriving Repr, DecidableEq

/-- Request body of /auth/signup (pydantic model SignUp). -/
structure SignUp where
  email : String
  password : String
deriving Repr, DecidableEq

/-- Request body of /auth/login (pydantic model Login). -/
structure Login where
  email : String
  password : String
deriving Repr, DecidableEq

/-- The user object of the signup and login responses. -/
structure UserOut where
  id : String
  email : String
deriving Repr, DecidableEq

/-- Success body of /auth/signup and /auth/login: token plus user. -/
structure AuthResponse where
  token : Token
  user : UserOut
deriving Repr, DecidableEq

/-- app.py lines 180-200: auth_signup.  db is the result of get_db.
    With no handle, `not None` is True and the handler raises 503.  With
    a handle, the guard `if not db:` at line 183 truth-tests the pymongo
    Database, which raises NotImplementedError before the try block, so
    the exception is uncaught and surfaces as a generic HTTP 500; the
    duplicate check, the bcrypt hash, the insert and the token issuance
    at lines 186-195 are dead code on that path.  The pair carries the
    post-state of the database, unchanged in both branches. -/
def auth_signup (db? : Option DB) (body : SignUp) (hash : String → String)
    (newId : String) (now : Nat) (secret : String) :
    Except HTTPException AuthResponse × Option DB :=
  match db? with
  | none => (.error ⟨503, "Database not configured"⟩, none)
  | some db => (.error ⟨500, "Internal Server Error"⟩, some db)

/-- app.py lines 206-223: auth_login.  As in auth_signup, the guard
    `if not db:` at line 209 raises 503 when the handle is None, and
    raises NotImplementedError (truth testing of a pymongo Database)
    before the try block when a handle exists, surfacing as HTTP 500;
    the find_one, the pwd_context.verify call and the token issuance at
    lines 212-218 are dead code on that path. -/
def auth_login (db? : Option DB) (body : Login) (verify : String → String → Bool)
    (now : Nat) (secret : String) : Except HTTPException AuthResponse :=
  match db? with
  | none => .error ⟨503, "Database not configured"⟩
  | some _ => .error ⟨500, "Internal Server Error"⟩

/-- The validated pydantic model ChatSave (app.py lines 138-141):
    question required, answer and error defaulting to the empty string. -/
structure ChatSave where
  question : String
  answer : String := ""
  error : String := ""
deriving Repr, DecidableEq

/-- A raw JSON body presented to POST /chats before pydantic validation:
    each field may be present or absent. -/
structure ChatSaveBody where
  question : Option String
  answer : Option String
  error : Option String
deriving Repr, DecidableEq

/-- Pydantic validation of ChatSave: fails (422) only when question is
    absent; answer and error take the declared defaults. -/
def parse_ChatSave (b : ChatSaveBody) : Option ChatSave :=
  match b.question with
  | none => none
  | some q => some ⟨q, b.answer.getD "", b.error.getD ""⟩

/-- Success body of POST /chats. -/
structure SaveAck where
  ok : Bool
deriving Repr, DecidableEq

/-- app.py lines 229-241: chats_save.  Authentication runs first (the
    Depends on get_current_user).  Then the guard `if not db:` at line
    232 raises 503 when the handle is None, and raises
    NotImplementedError (truth testing of a pymongo Database) when a
    handle exists; the handler has no try block, so that surfaces as
    HTTP 500 and the insert_one at lines 234-240 is dead code.  The pair
    carries the post-state of the database, unchanged in all branches. -/
def chats_save (creds : Option Token) (secret : String) (now : Nat)
    (db? : Option DB) (body : ChatSave) :
    Except HTTPException SaveAck × Option DB :=
  match get_current_user creds secret now with
  | .error e => (.error e, db?)
  | .ok _ =>
    match db? with
    | none => (.error ⟨503, "Database not configured"⟩, none)
    | some db => (.error ⟨500, "Internal Server Error"⟩, some db)

/-- One rendered element of the GET /chats response. -/
structure ChatItem where
  question : String
  answer : String
  error : String
  createdAt : Option String
deriving Repr, DecidableEq

/-- Success body of GET /chats. -/
structure ChatsResponse where
  chats : List ChatItem
deriving Repr, DecidableEq

/-- app.py lines 243-257: chats_list.  Authentication first.  Then the
    guard `if not db:` at line 246 raises 503 when the handle is None,
    and raises NotImplementedError (truth testing of a pymongo Database)
    when a handle exists; without a try block that surfaces as HTTP 500,
    and the find, sort("createdAt", 1), limit(100) and rendering loop at
    lines 248-257 are dead code. -/
def chats_list (creds : Option Token) (secret : String) (now : Nat)
    (db? : Option DB) : Except HTTPException ChatsResponse :=
  match get_current_user creds secret now with
  | .error e => .error e
  | .ok _ =>
    match db? with
    | none => .error ⟨503, "Database not configured"⟩
    | some _ => .error ⟨500, "Internal Server Error"⟩

/-- Request body of POST /chat (pydantic model Query). -/
structure Query where
  question : String
deriving Repr, DecidableEq

/-- Success body of POST /chat. -/
structure ChatResponse where
  answer : String
deriving Repr, DecidableEq

/-- app.py lines 259-267: the chat endpoint.  The delegate parameter
    stands for the lazily built RAG chain: get_rag_chain() followed by
    chain.invoke(question); a .error value stands for any exception
    raised inside the try block, which the handler converts to an
    HTTPException with status 500 and the stringified exception, so no
    exception escapes the boundary.  On success the handler wraps the
    delegate output in the literal f-string prefix of line 265. -/
def chat (delegate : String → Except String String) (query : Query) :
    Except HTTPException ChatResponse :=
  match delegate query.question with
  | .ok answer => .ok ⟨"Helpful Answer: V5 " ++ answer⟩
  | .error e => .error ⟨500, e⟩

/-- Whether an endpoint outcome is an HTTP 401 failure. -/
def status401 {α : Type} : Except HTTPException α → Bool
  | .error e => e.status == 401
  | .ok _ => false

/-! ### Helper lemmas -/

/-- A token signed with the shared secret, not yet expired, carrying a
    nonempty subject id, passes get_current_user and yields the embedded
    identity. -/
theorem get_current_user_token_ok (c : Claims) (uid : String) (secret : String) (now : Nat)
    (hsub : c.sub = some uid) (huid : uid ≠ "") (hexp : ¬ c.exp < now) :
    get_current_user (some (jwt_encode c secret)) secret now = .ok ⟨uid, c.email⟩ := by
  simp [get_current_user, jwt_encode, jwt_decode, hexp, hsub, huid]

/-- Missing credentials, a signature that does not match the shared
    secret, an expired token, or a missing subject claim all make
    get_current_user fail with status 401. -/
theorem get_current_user_reject (creds : Option Token) (secret : String) (now : Nat)
    (h : creds = none ∨ ∃ t, creds = some t ∧
        (t.sig ≠ mkSig t.claims secret ∨ t.claims.exp < now ∨ t.claims.sub = none)) :
    status401 (get_current_user creds secret now) = true := by
  rcases h with h | ⟨t, rfl, h⟩
  · subst h; simp [get_current_user, status401]
  · rcases h with h | h | h
    · simp [get_current_user, jwt_decode, h, status401]
    · by_cases hs : t.sig = mkSig t.claims secret
      · simp [get_current_user, jwt_decode, hs, h, status401]
      · simp [get_current_user, jwt_decode, hs, status401]
    · by_cases hs : t.sig = mkSig t.claims secret
      · by_cases he : t.claims.exp < now
        · simp [get_current_user, jwt_decode, hs, he, status401]
        · simp [get_current_user, jwt_decode, hs, he, h, status401]
      · simp [get_current_user, jwt_decode, hs, status401]

/-! ### Claim theorems -/

/-- C1: a token issued by create_access_token with sub = id and email =
    email (as login and signup both do, with a store-generated nonempty
    id), presented to GET /auth/me before expiry, yields exactly the same
    id and email. -/
theorem auth_me_token_roundtrip (id email : String) (t0 now : Nat) (secret : String)
    (hid : id ≠ "") (hnow : now < t0 + JWT_EXPIRE_MINUTES * 60) :
    auth_me (some (create_access_token id email t0 secret)) secret now =
      .ok ⟨id, some email⟩ := by
  exact get_current_user_token_ok ⟨some id, some email, t0 + JWT_EXPIRE_MINUTES * 60⟩
    id secret now rfl hid
    (by show ¬ t0 + JWT_EXPIRE_MINUTES * 60 < now; omega)

/-- C1 witness at a concrete id, email, issue time and check time. -/
theorem auth_me_token_roundtrip_witness :
    auth_me (some (create_access_token "u1" "a@b.c" 0 "s")) "s" 5 =
      .ok ⟨"u1", some "a@b.c"⟩ :=
  auth_me_token_roundtrip "u1" "a@b.c" 0 5 "s" (by decide) (by decide)

/-- C7: on a request to GET /auth/me, POST /chats or GET /chats that
    presents no token, a token whose signature does not match the shared
    secret, an expired token, or a token without the subject-id claim,
    the endpoint fails with HTTP 401, regardless of the database state
    and of the request body. -/
theorem bearer_endpoints_401 (creds : Option Token) (secret : String) (now : Nat)
    (db? : Option DB) (body : ChatSave)
    (h : creds = none ∨ ∃ t, creds = some t ∧
        (t.sig ≠ mkSig t.claims secret ∨ t.claims.exp < now ∨ t.claims.sub = none)) :
    status401 (auth_me creds secret now) = true ∧
    status401 (chats_save creds secret now db? body).1 = true ∧
    status401 (chats_list creds secret now db?) = true := by
  have hg := get_current_user_reject creds secret now h
  refine ⟨hg, ?_, ?_⟩
  · unfold chats_save
    cases hu : get_current_user creds secret now with
    | error e => simpa [hu, status401] using (by simpa [hu, status401] using hg)
    | ok u => simp [hu, status401] at hg
  · unfold chats_list
    cases hu : get_current_user creds secret now with
    | error e => simpa [hu, status401] using (by simpa [hu, status401] using hg)
    | ok u => simp [hu, status401] at hg

/-- C7 witness: a request with no token against all three endpoints. -/
theorem bearer_endpoints_401_witness :
    status401 (auth_me none "s" 0) = true ∧
    status401 (chats_save none "s" 0 none ⟨"q", "", ""⟩).1 = true ∧
    status401 (chats_list none "s" 0 none) = true :=
  bearer_endpoints_401 none "s" 0 none ⟨"q", "", ""⟩ (Or.inl rfl)

/-- C8: a token carries exp = issue time + 7 days (JWT_EXPIRE_MINUTES
    minutes); verification strictly before that instant accepts it
    (valid signature and nonempty subject given), verification strictly
    after rejects it with 401. -/
theorem token_expires_after_7_days (sub email : String) (t0 now1 now2 : Nat) (secret : String)
    (hsub : sub ≠ "") (h1 : now1 < t0 + 7 * 24 * 60 * 60) (h2 : t0 + 7 * 24 * 60 * 60 < now2) :
    get_current_user (some (create_access_token sub email t0 secret)) secret now1 =
      .ok ⟨sub, some email⟩ ∧
    status401 (get_current_user (some (create_access_token sub email t0 secret)) secret now2)
      = true := by
  have hsec : JWT_EXPIRE_MINUTES * 60 = 7 * 24 * 60 * 60 := by norm_num [JWT_EXPIRE_MINUTES]
  constructor
  · refine get_current_user_token_ok _ sub secret now1 rfl hsub ?_
    simp only [hsec]
    omega
  · refine get_current_user_reject _ secret now2 (Or.inr ⟨_, rfl, Or.inr (Or.inl ?_)⟩)
    simp only [create_access_token, jwt_encode, hsec]
    omega

/-- C8 witness: a token issued at time 0, checked one second before and
    one second after the 7-day mark. -/
theorem token_expires_after_7_days_witness :
    get_current_user (some (create_access_token "u1" "a@b" 0 "s")) "s" 604799 =
      .ok ⟨"u1", some "a@b"⟩ ∧
    status401 (get_current_user (some (create_access_token "u1" "a@b" 0 "s")) "s" 604801)
      = true :=
  token_expires_after_7_days "u1" "a@b" 0 604799 604801 "s" (by decide) (by norm_num)
    (by norm_num)

/-- C10: a token with a valid signature, unexpired, with a nonempty
    subject but no email claim, is accepted, and GET /auth/me returns
    the subject id with a null email. -/
theorem auth_me_no_email_claim (uid : String) (exp now : Nat) (secret : String)
    (huid : uid ≠ "") (hexp : ¬ exp < now) :
    auth_me (some (jwt_encode ⟨some uid, none, exp⟩ secret)) secret now =
      .ok ⟨uid, none⟩ :=
  get_current_user_token_ok ⟨some uid, none, exp⟩ uid secret now rfl huid hexp

/-- C10 witness at a concrete subject, expiry and check time. -/
theorem auth_me_no_email_claim_witness :
    auth_me (some (jwt_encode ⟨some "u1", none, 100⟩ "s")) "s" 50 = .ok ⟨"u1", none⟩ :=
  auth_me_no_email_claim "u1" 100 50 "s" (by decide) (by decide)

/-- C2, code bug: pydantic does accept a question-only body with answer
    and error defaulting to the empty string, but an authenticated
    append against a reachable store does not succeed: the `if not db:`
    guard truth-tests the pymongo Database, raising uncaught
    NotImplementedError, so the request yields HTTP 500 and nothing is
    inserted, contradicting the claimed unconditional accept with 503
    reserved for an unreachable store. -/
theorem chats_save_500_on_reachable_store :
    parse_ChatSave ⟨some "q", none, none⟩ = some ⟨"q", "", ""⟩ ∧
    chats_save (some (jwt_encode ⟨some "u1", some "a@b", 10⟩ "s")) "s" 0
        (some ⟨[], []⟩) ⟨"q", "", ""⟩ =
      (.error ⟨500, "Internal Server Error"⟩, some ⟨[], []⟩) ∧
    (chats_save (some (jwt_encode ⟨some "u1", some "a@b", 10⟩ "s")) "s" 0
        none ⟨"q", "", ""⟩).1 = .error ⟨503, "Database not configured"⟩ :=
  ⟨rfl, rfl, rfl⟩

/-- C3 counterexample: with a delegate that returns the string 42, the
    answer field of the response is the prefixed string, not the
    delegate output itself, so the claimed equality fails. -/
theorem chat_answer_not_raw :
    chat (fun _ => .ok "42") ⟨"q"⟩ = .ok ⟨"Helpful Answer: V5 42"⟩ ∧
    "Helpful Answer: V5 42" ≠ "42" :=
  ⟨rfl, by decide⟩

/-- C3 amended: when the delegate succeeds with string s, POST /chat
    returns a body whose answer field is the literal prefix
    Helpful Answer: V5 followed by a space and s. -/
theorem chat_answer_prefixed (delegate : String → Except String String) (q : Query)
    (s : String) (h : delegate q.question = .ok s) :
    chat delegate q = .ok ⟨"Helpful Answer: V5 " ++ s⟩ := by
  simp [chat, h]

/-- C3 amended witness at a concrete delegate and question. -/
theorem chat_answer_prefixed_witness :
    chat (fun _ => .ok "the bee answer") ⟨"what is a bee"⟩ =
      .ok ⟨"Helpful Answer: V5 " ++ "the bee answer"⟩ :=
  chat_answer_prefixed (fun _ => .ok "the bee answer") ⟨"what is a bee"⟩
    "the bee answer" rfl

/-- C4, code bug: an authenticated GET /chats against a reachable store
    holding records of the caller never returns them: the `if not db:`
    guard truth-tests the pymongo Database, raising uncaught
    NotImplementedError, so the request yields HTTP 500 instead of the
    claimed oldest-first listing. -/
theorem chats_list_500_on_reachable_store :
    chats_list (some (jwt_encode ⟨some "u1", some "a@b", 10⟩ "s")) "s" 0
      (some ⟨[], [⟨"u1", "q1", "a1", "", 1⟩, ⟨"u1", "q2", "a2", "", 3⟩]⟩) =
      .error ⟨500, "Internal Server Error"⟩ :=
  rfl

/-- C5, code bug: with a reachable store, a login with an unknown email
    and a login with the stored email but a rejected password both hit
    the `if not db:` guard, whose truth test of the pymongo Database
    raises uncaught NotImplementedError before find_one ever runs; both
    requests yield HTTP 500 rather than the claimed 401 AuthError, so
    the 401 credential-error branch is unreachable. -/
theorem auth_login_500_on_reachable_store :
    auth_login (some ⟨[⟨"id1", "b@c", "h1", 0⟩], []⟩) ⟨"a@b", "p1"⟩ (fun _ _ => false) 0 "s" =
      .error ⟨500, "Internal Server Error"⟩ ∧
    auth_login (some ⟨[⟨"id1", "b@c", "h1", 0⟩], []⟩) ⟨"b@c", "p2"⟩ (fun _ _ => false) 0 "s" =
      .error ⟨500, "Internal Server Error"⟩ :=
  ⟨rfl, rfl⟩

/-- C6, code bug: a second signup with an already-stored email never
    reaches the duplicate check: the `if not db:` guard truth-tests the
    pymongo Database, raising uncaught NotImplementedError before the
    try block, so the request yields HTTP 500 rather than the claimed
    400 ConflictError; no user record is written, but only because the
    handler dies first. -/
theorem auth_signup_500_on_reachable_store :
    auth_signup (some ⟨[⟨"id1", "b@c", "h1", 0⟩], []⟩) ⟨"b@c", "pw"⟩ (fun p => p) "id2" 5 "s" =
      (.error ⟨500, "Internal Server Error"⟩, some ⟨[⟨"id1", "b@c", "h1", 0⟩], []⟩) :=
  rfl

/-- C9: when the delegate raises, POST /chat yields the HTTP 500 failure
    value at the boundary: the handler catches the exception and maps it
    to an HTTPException rather than letting it escape. -/
theorem chat_delegate_failure_500 (delegate : String → Except String String) (q : Query)
    (e : String) (h : delegate q.question = .error e) :
    chat delegate q = .error ⟨500, e⟩ := by
  simp [chat, h]

/-- C9 witness at a concrete failing delegate. -/
theorem chat_delegate_failure_500_witness :
    chat (fun _ => .error "model down") ⟨"hello"⟩ = .error ⟨500, "model down"⟩ :=
  chat_delegate_failure_500 (fun _ => .error "model down") ⟨"hello"⟩ "model down" rfl

end HW
